import Mathlib

/-!
Shallow embedding of the T-Shirt Mockup Generator's placement engine
(`src/mockup_generator.py`) and proofs about its specification.

Modelling conventions:
* Python floats are modelled as exact rationals (`ℚ`).  All float values
  occurring in the placement arithmetic are ratios of small integers, for
  which IEEE double rounding never changes the value of the subsequent
  `int(...)` truncation, so the rational model is faithful.
* Python `int(x)` truncates toward zero (`pytrunc`); Python `//` on
  integers is floor division (`pyfloordiv`).
* Python `/` raises `ZeroDivisionError` on a zero divisor; fallible
  computations live in `Except PyErr`.
* Images are modelled by their dimensions and a pixel function; decoding
  (`PIL.Image.open`) of an uploaded file either yields the image or raises.
* The cv2-based contour detector (`get_shirt_bbox`, lines 61-70) is an
  external-collaborator boundary per the spec (section 4.1): placement
  consumes its result as an `Option BBox`.
-/

namespace Mockup

/-- Python `int(x)` applied to a real number: truncation toward zero,
computed on the reduced fraction. -/
def pytrunc (q : ℚ) : ℤ := Int.tdiv q.num q.den

/-- Python `//` on integers: floor division. -/
def pyfloordiv (a b : ℤ) : ℤ := Int.fdiv a b

/-- Python exceptions that the modelled code can raise. -/
inductive PyErr where
  /-- Raised by Python `/` when the divisor is zero. -/
  | zeroDivisionError
  /-- Raised by `PIL.Image.open` when the bytes cannot be decoded. -/
  | unidentifiedImageError
  /-- The error the specification says a zero-size design should signal. -/
  | invalidInput
  deriving DecidableEq, Repr

/-- Python `/` on numbers: exact division, raising on a zero divisor. -/
def pydiv (a b : ℚ) : Except PyErr ℚ :=
  if b = 0 then .error .zeroDivisionError else .ok (a / b)

/-- A bounding box `(x, y, w, h)` as returned by `cv2.boundingRect`
(all components are nonnegative integers). -/
structure BBox where
  x : ℕ
  y : ℕ
  w : ℕ
  h : ℕ
  deriving DecidableEq, Repr

/-- The placement computed for one (design, template) pair: the scale
factor, the resized design dimensions, and the paste coordinates.
In the fallback (no bounding box) branch the design is unscaled, which we
record as `scale = 1` with the original dimensions. -/
structure Placement where
  scale : ℚ
  new_width : ℤ
  new_height : ℤ
  x : ℤ
  y : ℤ
  deriving DecidableEq, Repr

/-- The live-preview placement block, `src/mockup_generator.py` lines 88-101:
scale/resize/center inside the detected box, or center unscaled on the
canvas when no box was detected. -/
def previewPlacement (dw dh : ℕ) (bbox : Option BBox) (tw th : ℕ)
    (padding_ratio : ℚ) (offset_pct : ℤ) : Except PyErr Placement :=
  match bbox with
  | some b => do
      let r1 ← pydiv (b.w : ℚ) (dw : ℚ)
      let r2 ← pydiv (b.h : ℚ) (dh : ℚ)
      let scale := min (min r1 r2) 1 * padding_ratio
      let new_width := pytrunc ((dw : ℚ) * scale)
      let new_height := pytrunc ((dh : ℚ) * scale)
      let y_offset := pytrunc ((b.h : ℚ) * (offset_pct : ℚ) / 100)
      let x := (b.x : ℤ) + pyfloordiv ((b.w : ℤ) - new_width) 2
      let y := (b.y : ℤ) + y_offset
      pure { scale := scale, new_width := new_width, new_height := new_height,
             x := x, y := y }
  | none =>
      pure { scale := 1, new_width := (dw : ℤ), new_height := (dh : ℤ),
             x := pyfloordiv ((tw : ℤ) - (dw : ℤ)) 2,
             y := pyfloordiv ((th : ℤ) - (dh : ℤ)) 2 }

/-- The batch-generation placement block, `src/mockup_generator.py`
lines 132-145; textually the same algorithm as the preview block. -/
def generatePlacement (dw dh : ℕ) (bbox : Option BBox) (tw th : ℕ)
    (padding_ratio : ℚ) (offset_pct : ℤ) : Except PyErr Placement :=
  match bbox with
  | some b => do
      let r1 ← pydiv (b.w : ℚ) (dw : ℚ)
      let r2 ← pydiv (b.h : ℚ) (dh : ℚ)
      let scale := min (min r1 r2) 1 * padding_ratio
      let new_width := pytrunc ((dw : ℚ) * scale)
      let new_height := pytrunc ((dh : ℚ) * scale)
      let y_offset := pytrunc ((b.h : ℚ) * (offset_pct : ℚ) / 100)
      let x := (b.x : ℤ) + pyfloordiv ((b.w : ℤ) - new_width) 2
      let y := (b.y : ℤ) + y_offset
      pure { scale := scale, new_width := new_width, new_height := new_height,
             x := x, y := y }
  | none =>
      pure { scale := 1, new_width := (dw : ℤ), new_height := (dh : ℤ),
             x := pyfloordiv ((tw : ℤ) - (dw : ℤ)) 2,
             y := pyfloordiv ((th : ℤ) - (dh : ℤ)) 2 }

/-! ### Template classification and parameter selection -/

/-- Does `pat` occur at the head of `hay`? -/
def leadMatch : List Char → List Char → Bool
  | _, [] => true
  | [], _ :: _ => false
  | c :: cs, p :: ps => (c == p) && leadMatch cs ps

/-- Substring containment on character lists (Python `pat in hay`). -/
def containsSub : List Char → List Char → Bool
  | [], pat => pat.isEmpty
  | c :: cs, pat => leadMatch (c :: cs) pat || containsSub cs pat

/-- Line 128 / 84: `"model" in shirt_file.name.lower()`.  `Char.toLower`
lowercases ASCII letters, which matches Python `str.lower` on the ASCII
filenames the application deals with. -/
def isModel (name : String) : Bool :=
  containsSub (name.data.map Char.toLower) "model".data

/-- Lines 128-141 / 84-97: select the offset and padding parameters by the
template name and run the placement computation of the generate branch. -/
def placeForTemplate (name : String) (dw dh : ℕ) (bbox : Option BBox) (tw th : ℕ)
    (plain_padding model_padding : ℚ) (plain_offset model_offset : ℤ) :
    Except PyErr Placement :=
  generatePlacement dw dh bbox tw th
    (if isModel name then model_padding else plain_padding)
    (if isModel name then model_offset else plain_offset)

/-- Projection of a placement result onto its vertical paste coordinate. -/
def okY (e : Except PyErr Placement) : Option ℤ :=
  match e with
  | .ok p => some p.y
  | .error _ => none

/-! ### Images, compositing and the batch loop -/

/-- A decoded raster: dimensions plus an RGBA pixel function. -/
structure Img where
  width : ℕ
  height : ℕ
  pix : ℕ → ℕ → ℕ × ℕ × ℕ × ℕ

instance : Inhabited Img := ⟨⟨0, 0, fun _ _ => (0, 0, 0, 0)⟩⟩

/-- Alpha blending of one pixel over another using the source pixel's own
alpha channel as the mask weight. -/
def blendPx (dst src : ℕ × ℕ × ℕ × ℕ) : ℕ × ℕ × ℕ × ℕ :=
  let a := src.2.2.2
  ((src.1 * a + dst.1 * (255 - a)) / 255,
   (src.2.1 * a + dst.2.1 * (255 - a)) / 255,
   (src.2.2.1 * a + dst.2.2.1 * (255 - a)) / 255,
   (src.2.2.2 * a + dst.2.2.2 * (255 - a)) / 255)

/-- Modelled from the spec, section 4.3 (the compositor is PIL's
`Image.paste` with the design's alpha as mask, whose code is not part of
this repository): the result keeps the base image's dimensions, overlay
pixels are alpha-blended at the given offset, and out-of-canvas portions
of the overlay clip silently. -/
def pasteImg (base overlay : Img) (x y : ℤ) : Img :=
  { width := base.width,
    height := base.height,
    pix := fun i j =>
      if x ≤ (i : ℤ) ∧ (i : ℤ) < x + (overlay.width : ℤ) ∧
         y ≤ (j : ℤ) ∧ (j : ℤ) < y + (overlay.height : ℤ) then
        blendPx (base.pix i j) (overlay.pix ((i : ℤ) - x).toNat ((j : ℤ) - y).toNat)
      else base.pix i j }

/-- Modelled from the spec, design notes (PIL `Image.resize` is not part of
this repository and the spec pins no resampling algorithm, only the exact
output dimensions): nearest-neighbour resize to the requested dimensions. -/
def resizeImg (img : Img) (w h : ℕ) : Img :=
  { width := w,
    height := h,
    pix := fun i j => img.pix (i * img.width / max w 1) (j * img.height / max h 1) }

/-- A store of live image objects; handles are indices. -/
def getImg (s : List Img) (h : ℕ) : Img := s.getD h default

/-- Overwrite the image behind handle `h` (in-place mutation). -/
def setImg (s : List Img) (h : ℕ) (img : Img) : List Img := s.set h img

/-- Lines 147-148: `shirt_copy = shirt.copy()` allocates a fresh image
object, then `shirt_copy.paste(resized_design, (x, y), resized_design)`
mutates that copy in place.  Returns the new store and the handle of the
composited copy. -/
def compositeRun (s : List Img) (shirt : ℕ) (design : Img) (x y : ℤ) :
    List Img × ℕ :=
  let c := s.length
  let s1 := s ++ [getImg s shirt]
  let s2 := setImg s1 c (pasteImg (getImg s1 c) design x y)
  (s2, c)

/-- An uploaded file: its name and, when the bytes are decodable, the
decoded image. -/
structure UFile where
  name : String
  content : Option Img

/-- Decoding, `PIL.Image.open(...).convert("RGBA")`: the decoded image, or an
`UnidentifiedImageError` when the bytes cannot be parsed.  The RGBA
conversion only changes the pixel mode, which the model does not track. -/
def pyImageOpen (f : UFile) : Except PyErr Img :=
  match f.content with
  | some img => .ok img
  | none => .error .unidentifiedImageError

/-- The characters before the last dot of a name, when a dot exists. -/
def beforeLastDot : List Char → Option (List Char)
  | [] => none
  | c :: cs =>
    match beforeLastDot cs with
    | some r => some (c :: r)
    | none => if c = '.' then some [] else none

/-- Python `os.path.splitext(name)[0]`: the name without its final extension.
Faithful for ordinary filenames whose base name is nonempty. -/
def splitextRoot (name : String) : String :=
  match beforeLastDot name.data with
  | some r => ⟨r⟩
  | none => name

/-- A Python `for` loop whose body can raise: exceptions abort the whole
loop and propagate. -/
def forEachM (f : α → Except ε β) : List α → Except ε (List β)
  | [] => .ok []
  | a :: as => do
      let b ← f a
      let bs ← forEachM f as
      pure (b :: bs)

/-- The inner loop body, lines 123-154 (zip packaging elided as an
out-of-scope collaborator per the spec): decode the shirt, select the
parameters from its name, detect the box (detection is the cv2
collaborator, passed as an oracle), place, resize, composite, and name the
output `{graphic_name}_{color_name}_tee.png`. -/
def processShirt (detect : Img → Option BBox) (plain_padding model_padding : ℚ)
    (plain_offset model_offset : ℤ) (graphic_name : String) (design : Img)
    (shirt_file : UFile) : Except PyErr (String × Img) := do
  let color_name := splitextRoot shirt_file.name
  let shirt ← pyImageOpen shirt_file
  let offset_pct := if isModel shirt_file.name then model_offset else plain_offset
  let padding_ratio := if isModel shirt_file.name then model_padding else plain_padding
  let p ← generatePlacement design.width design.height (detect shirt)
    shirt.width shirt.height padding_ratio offset_pct
  let resized_design := resizeImg design p.new_width.toNat p.new_height.toNat
  let out := pasteImg shirt resized_design p.x p.y
  pure (graphic_name ++ "_" ++ color_name ++ "_tee.png", out)

/-- The outer loop body, lines 116-126: look up the design's custom name,
decode the design, then process every shirt template against it. -/
def processDesign (detect : Img → Option BBox) (design_names : String → Option String)
    (shirts : List UFile) (plain_padding model_padding : ℚ)
    (plain_offset model_offset : ℤ) (design_file : UFile) :
    Except PyErr (List (String × Img)) := do
  let graphic_name := (design_names design_file.name).getD "graphic"
  let design ← pyImageOpen design_file
  forEachM
    (processShirt detect plain_padding model_padding plain_offset model_offset
      graphic_name design) shirts

/-- The generate-mockups loop, lines 110-157: every (design, template)
pair of the selected batch, flattened.  An uncaught exception anywhere in
the nested loops propagates and aborts the whole batch. -/
def generateBatch (detect : Img → Option BBox) (design_names : String → Option String)
    (selected_batch shirts : List UFile) (plain_padding model_padding : ℚ)
    (plain_offset model_offset : ℤ) : Except PyErr (List (String × Img)) := do
  let groups ← forEachM
    (processDesign detect design_names shirts plain_padding model_padding
      plain_offset model_offset) selected_batch
  pure groups.flatten

/-- A concrete single-colour image, for witnesses and counterexamples. -/
def solidImg (w h : ℕ) : Img := ⟨w, h, fun _ _ => (200, 200, 200, 255)⟩

/-! ### Arithmetic facts about the Python primitives -/

lemma tdiv_natCast_eq_ediv (m : ℕ) (b : ℤ) : Int.tdiv (m : ℤ) b = (m : ℤ) / b := by
  cases b with
  | ofNat n => rfl
  | negSucc n => rfl

lemma pytrunc_eq_floor {q : ℚ} (h : 0 ≤ q) : pytrunc q = ⌊q⌋ := by
  obtain ⟨m, hm⟩ : ∃ m : ℕ, q.num = m :=
    ⟨q.num.toNat, (Int.toNat_of_nonneg (Rat.num_nonneg.mpr h)).symm⟩
  rw [pytrunc, Rat.floor_def, hm, tdiv_natCast_eq_ediv]

lemma ceil_eq_neg_floor_neg (q : ℚ) : ⌈q⌉ = -⌊-q⌋ := by
  rw [Int.floor_neg]
  simp

lemma pytrunc_neg (q : ℚ) : pytrunc (-q) = -pytrunc q := by
  rw [pytrunc, pytrunc]
  have h1 : (-q).num = -q.num := by simp
  have h2 : ((-q).den : ℤ) = (q.den : ℤ) := by simp
  rw [h1, h2, Int.neg_tdiv]

lemma pytrunc_eq_ceil {q : ℚ} (h : q < 0) : pytrunc q = ⌈q⌉ := by
  have hq : q = -(-q) := by ring
  rw [hq, pytrunc_neg, ceil_eq_neg_floor_neg, neg_neg,
      pytrunc_eq_floor (by linarith : (0:ℚ) ≤ -q)]

lemma pytrunc_natCast_div (m d : ℕ) : pytrunc ((m : ℚ) / (d : ℚ)) = (m : ℤ) / (d : ℤ) := by
  rcases Nat.eq_zero_or_pos d with hd | hd
  · subst hd
    norm_num [pytrunc]
  · have h0 : (0 : ℚ) ≤ (m : ℚ) / (d : ℚ) := by positivity
    rw [pytrunc_eq_floor h0, Rat.floor_natCast_div_natCast]

lemma pytrunc_neg_natCast_div (m d : ℕ) :
    pytrunc (-((m : ℚ) / (d : ℚ))) = -((m : ℤ) / (d : ℤ)) := by
  rw [pytrunc_neg, pytrunc_natCast_div]

lemma pytrunc_intCast (z : ℤ) : pytrunc (z : ℚ) = z := by
  rcases le_or_lt 0 z with hz | hz
  · rw [pytrunc_eq_floor (by exact_mod_cast hz), Int.floor_intCast]
  · rw [pytrunc_eq_ceil (by exact_mod_cast hz), Int.ceil_intCast]

lemma pytrunc_nonneg {q : ℚ} (h : 0 ≤ q) : 0 ≤ pytrunc q := by
  rw [pytrunc_eq_floor h]
  exact Int.floor_nonneg.mpr h

lemma pytrunc_le_natCast {q : ℚ} {n : ℕ} (h0 : 0 ≤ q) (h : q ≤ (n : ℚ)) :
    pytrunc q ≤ (n : ℤ) := by
  rw [pytrunc_eq_floor h0]
  have := Int.floor_le_floor h
  simpa using this

lemma fdiv_two (a : ℤ) : Int.fdiv a 2 = a / 2 := by
  cases a with
  | ofNat m =>
    cases m with
    | zero => rfl
    | succ k => rfl
  | negSucc m => rfl

/-- The explicit result of the batch-generation placement when a bounding
box is present and the design has nonzero dimensions. -/
lemma generatePlacement_some (dw dh : ℕ) (b : BBox) (tw th : ℕ)
    (padding_ratio : ℚ) (offset_pct : ℤ) (hdw : dw ≠ 0) (hdh : dh ≠ 0) :
    generatePlacement dw dh (some b) tw th padding_ratio offset_pct =
      .ok { scale := min (min ((b.w : ℚ) / (dw : ℚ)) ((b.h : ℚ) / (dh : ℚ))) 1 * padding_ratio,
            new_width := pytrunc ((dw : ℚ) * (min (min ((b.w : ℚ) / (dw : ℚ)) ((b.h : ℚ) / (dh : ℚ))) 1 * padding_ratio)),
            new_height := pytrunc ((dh : ℚ) * (min (min ((b.w : ℚ) / (dw : ℚ)) ((b.h : ℚ) / (dh : ℚ))) 1 * padding_ratio)),
            x := (b.x : ℤ) + pyfloordiv ((b.w : ℤ) - pytrunc ((dw : ℚ) * (min (min ((b.w : ℚ) / (dw : ℚ)) ((b.h : ℚ) / (dh : ℚ))) 1 * padding_ratio))) 2,
            y := (b.y : ℤ) + pytrunc ((b.h : ℚ) * (offset_pct : ℚ) / 100) } := by
  have hdw' : ((dw : ℚ)) ≠ 0 := Nat.cast_ne_zero.mpr hdw
  have hdh' : ((dh : ℚ)) ≠ 0 := Nat.cast_ne_zero.mpr hdh
  simp only [generatePlacement, pydiv, hdw', hdh', if_neg, ite_false]
  rfl

/-! ### Bounds on the computed scale -/

lemma scale_nonneg (bw bh dw dh : ℕ) (pad : ℚ) (hpad : 0 ≤ pad) :
    0 ≤ min (min ((bw : ℚ) / (dw : ℚ)) ((bh : ℚ) / (dh : ℚ))) 1 * pad := by
  apply mul_nonneg _ hpad
  exact le_min (le_min (by positivity) (by positivity)) zero_le_one

lemma scale_le_one (bw bh dw dh : ℕ) (pad : ℚ) (hpad0 : 0 ≤ pad) (hpad1 : pad ≤ 1) :
    min (min ((bw : ℚ) / (dw : ℚ)) ((bh : ℚ) / (dh : ℚ))) 1 * pad ≤ 1 := by
  calc min (min ((bw : ℚ) / (dw : ℚ)) ((bh : ℚ) / (dh : ℚ))) 1 * pad
      ≤ 1 * pad := by
        apply mul_le_mul_of_nonneg_right (min_le_right _ _) hpad0
    _ ≤ 1 := by simpa using hpad1

lemma scale_le_ratio_w (bw bh dw dh : ℕ) (pad : ℚ) (hpad1 : pad ≤ 1) :
    min (min ((bw : ℚ) / (dw : ℚ)) ((bh : ℚ) / (dh : ℚ))) 1 * pad ≤ (bw : ℚ) / (dw : ℚ) := by
  have hm : min (min ((bw : ℚ) / (dw : ℚ)) ((bh : ℚ) / (dh : ℚ))) 1 ≤ (bw : ℚ) / (dw : ℚ) :=
    le_trans (min_le_left _ _) (min_le_left _ _)
  have hge : (0 : ℚ) ≤ min (min ((bw : ℚ) / (dw : ℚ)) ((bh : ℚ) / (dh : ℚ))) 1 :=
    le_min (le_min (by positivity) (by positivity)) zero_le_one
  calc min (min ((bw : ℚ) / (dw : ℚ)) ((bh : ℚ) / (dh : ℚ))) 1 * pad
      ≤ min (min ((bw : ℚ) / (dw : ℚ)) ((bh : ℚ) / (dh : ℚ))) 1 * 1 :=
        mul_le_mul_of_nonneg_left hpad1 hge
    _ ≤ (bw : ℚ) / (dw : ℚ) := by simp [hm]

/-! ### Claims -/

/-- C1: with a bounding box present, a positive-size design and a padding
ratio in (0,1], the computed scale is
`min(bbox.w / design.w, bbox.h / design.h, 1) * padding_ratio` and the
resized design's width and height never exceed the original design's. -/
theorem C1_no_upscale_with_bbox (dw dh : ℕ) (b : BBox) (tw th : ℕ)
    (padding_ratio : ℚ) (offset_pct : ℤ)
    (hdw : 0 < dw) (hdh : 0 < dh)
    (hp0 : 0 < padding_ratio) (hp1 : padding_ratio ≤ 1) :
    ∃ p : Placement,
      generatePlacement dw dh (some b) tw th padding_ratio offset_pct = .ok p ∧
      p.scale = min (min ((b.w : ℚ) / (dw : ℚ)) ((b.h : ℚ) / (dh : ℚ))) 1 * padding_ratio ∧
      p.new_width ≤ (dw : ℤ) ∧ p.new_height ≤ (dh : ℤ) := by
  refine ⟨_, generatePlacement_some dw dh b tw th padding_ratio offset_pct
    (Nat.pos_iff_ne_zero.mp hdw) (Nat.pos_iff_ne_zero.mp hdh), rfl, ?_, ?_⟩
  · set s : ℚ := min (min ((b.w : ℚ) / (dw : ℚ)) ((b.h : ℚ) / (dh : ℚ))) 1 * padding_ratio with hs
    have hs0 : 0 ≤ s := scale_nonneg b.w b.h dw dh padding_ratio (le_of_lt hp0)
    have hs1 : s ≤ 1 := scale_le_one b.w b.h dw dh padding_ratio (le_of_lt hp0) hp1
    have harg0 : (0 : ℚ) ≤ (dw : ℚ) * s := mul_nonneg (by positivity) hs0
    have harg : (dw : ℚ) * s ≤ (dw : ℚ) := by
      calc (dw : ℚ) * s ≤ (dw : ℚ) * 1 := mul_le_mul_of_nonneg_left hs1 (by positivity)
        _ = (dw : ℚ) := mul_one _
    exact pytrunc_le_natCast harg0 harg
  · set s : ℚ := min (min ((b.w : ℚ) / (dw : ℚ)) ((b.h : ℚ) / (dh : ℚ))) 1 * padding_ratio with hs
    have hs0 : 0 ≤ s := scale_nonneg b.w b.h dw dh padding_ratio (le_of_lt hp0)
    have hs1 : s ≤ 1 := scale_le_one b.w b.h dw dh padding_ratio (le_of_lt hp0) hp1
    have harg0 : (0 : ℚ) ≤ (dh : ℚ) * s := mul_nonneg (by positivity) hs0
    have harg : (dh : ℚ) * s ≤ (dh : ℚ) := by
      calc (dh : ℚ) * s ≤ (dh : ℚ) * 1 := mul_le_mul_of_nonneg_left hs1 (by positivity)
        _ = (dh : ℚ) := mul_one _
    exact pytrunc_le_natCast harg0 harg

/-- Witness for C1 at a concrete input: design 50 by 50, box (50,50,100,100),
padding ratio 1. -/
theorem C1_no_upscale_with_bbox_witness :
    ∃ p : Placement,
      generatePlacement 50 50 (some ⟨50, 50, 100, 100⟩) 200 200 1 0 = .ok p ∧
      p.scale = min (min (((⟨50, 50, 100, 100⟩ : BBox).w : ℚ) / ((50 : ℕ) : ℚ))
        (((⟨50, 50, 100, 100⟩ : BBox).h : ℚ) / ((50 : ℕ) : ℚ))) 1 * 1 ∧
      p.new_width ≤ ((50 : ℕ) : ℤ) ∧ p.new_height ≤ ((50 : ℕ) : ℤ) :=
  C1_no_upscale_with_bbox 50 50 ⟨50, 50, 100, 100⟩ 200 200 1 0
    (by decide) (by decide) zero_lt_one le_rfl

/-- C10: the live-preview placement block and the batch-generation
placement block are the same function: on identical inputs they produce
identical scale, resized dimensions and paste coordinates. -/
theorem C10_preview_generate_equal (dw dh : ℕ) (bbox : Option BBox) (tw th : ℕ)
    (padding_ratio : ℚ) (offset_pct : ℤ) :
    previewPlacement dw dh bbox tw th padding_ratio offset_pct =
      generatePlacement dw dh bbox tw th padding_ratio offset_pct := rfl

/-- C9: with a bounding box present and a positive-size design, the
resized design lies horizontally inside the box: `bbox.x ≤ x` and
`x + resized_width ≤ bbox.x + bbox.w`. -/
theorem C9_horizontal_containment (dw dh : ℕ) (b : BBox) (tw th : ℕ)
    (padding_ratio : ℚ) (offset_pct : ℤ)
    (hdw : 0 < dw) (hdh : 0 < dh)
    (hp0 : 0 < padding_ratio) (hp1 : padding_ratio ≤ 1) :
    ∃ p : Placement,
      generatePlacement dw dh (some b) tw th padding_ratio offset_pct = .ok p ∧
      (b.x : ℤ) ≤ p.x ∧ p.x + p.new_width ≤ (b.x : ℤ) + (b.w : ℤ) := by
  refine ⟨_, generatePlacement_some dw dh b tw th padding_ratio offset_pct
    (Nat.pos_iff_ne_zero.mp hdw) (Nat.pos_iff_ne_zero.mp hdh), ?_⟩
  set s : ℚ := min (min ((b.w : ℚ) / (dw : ℚ)) ((b.h : ℚ) / (dh : ℚ))) 1 * padding_ratio with hs
  have hs0 : 0 ≤ s := scale_nonneg b.w b.h dw dh padding_ratio (le_of_lt hp0)
  have harg0 : (0 : ℚ) ≤ (dw : ℚ) * s := mul_nonneg (by positivity) hs0
  have hdw' : ((dw : ℚ)) ≠ 0 := Nat.cast_ne_zero.mpr (Nat.pos_iff_ne_zero.mp hdw)
  have harg : (dw : ℚ) * s ≤ (b.w : ℚ) := by
    have hsr : s ≤ (b.w : ℚ) / (dw : ℚ) :=
      scale_le_ratio_w b.w b.h dw dh padding_ratio hp1
    calc (dw : ℚ) * s ≤ (dw : ℚ) * ((b.w : ℚ) / (dw : ℚ)) :=
          mul_le_mul_of_nonneg_left hsr (by positivity)
      _ = (b.w : ℚ) := mul_div_cancel₀ _ hdw'
  have hnw0 : 0 ≤ pytrunc ((dw : ℚ) * s) := pytrunc_nonneg harg0
  have hnwle : pytrunc ((dw : ℚ) * s) ≤ (b.w : ℤ) := pytrunc_le_natCast harg0 harg
  constructor
  · show (b.x : ℤ) ≤ (b.x : ℤ) + pyfloordiv ((b.w : ℤ) - pytrunc ((dw : ℚ) * s)) 2
    rw [pyfloordiv, fdiv_two]
    omega
  · show (b.x : ℤ) + pyfloordiv ((b.w : ℤ) - pytrunc ((dw : ℚ) * s)) 2 +
      pytrunc ((dw : ℚ) * s) ≤ (b.x : ℤ) + (b.w : ℤ)
    rw [pyfloordiv, fdiv_two]
    omega

/-- Witness for C9 at a concrete input: design 50 by 50, box (50,50,100,100),
padding ratio 1. -/
theorem C9_horizontal_containment_witness :
    ∃ p : Placement,
      generatePlacement 50 50 (some ⟨50, 50, 100, 100⟩) 200 200 1 0 = .ok p ∧
      (((⟨50, 50, 100, 100⟩ : BBox).x : ℤ)) ≤ p.x ∧
      p.x + p.new_width ≤ (((⟨50, 50, 100, 100⟩ : BBox).x : ℤ)) +
        (((⟨50, 50, 100, 100⟩ : BBox).w : ℤ)) :=
  C9_horizontal_containment 50 50 ⟨50, 50, 100, 100⟩ 200 200 1 0
    (by decide) (by decide) zero_lt_one le_rfl

/-- C6: for the bounding box (50,50,100,100), a 50 by 50 design, padding
ratio 0.5 and vertical offset 0, the placement is scale 0.5, resized
dimensions 25 by 25, x = 87 and y = 50. -/
theorem C6_concrete_scenario :
    generatePlacement 50 50 (some ⟨50, 50, 100, 100⟩) 200 200 (1/2) 0 =
      .ok { scale := 1/2, new_width := 25, new_height := 25, x := 87, y := 50 } := by
  rw [generatePlacement_some 50 50 ⟨50, 50, 100, 100⟩ 200 200 (1/2) 0
    (by decide) (by decide)]
  have hmin : min (min (((100 : ℕ) : ℚ) / ((50 : ℕ) : ℚ)) (((100 : ℕ) : ℚ) / ((50 : ℕ) : ℚ))) 1
      * (1/2 : ℚ) = 1/2 := by
    norm_num [min_def]
  have h25 : ((50 : ℕ) : ℚ) * (1/2 : ℚ) = ((25 : ℕ) : ℚ) / ((1 : ℕ) : ℚ) := by norm_num
  have hy : ((100 : ℕ) : ℚ) * ((0 : ℤ) : ℚ) / 100 = ((0 : ℕ) : ℚ) / ((1 : ℕ) : ℚ) := by
    norm_num
  show Except.ok _ = _
  rw [show ((⟨50, 50, 100, 100⟩ : BBox).w : ℚ) = ((100 : ℕ) : ℚ) from rfl,
      show ((⟨50, 50, 100, 100⟩ : BBox).h : ℚ) = ((100 : ℕ) : ℚ) from rfl,
      hmin, h25, hy, pytrunc_natCast_div, pytrunc_natCast_div]
  rw [show ((⟨50, 50, 100, 100⟩ : BBox).w : ℤ) = (100 : ℤ) from rfl]
  rw [pyfloordiv, fdiv_two]
  norm_num

/-- Counterexample to C2: for the box (0,0,100,150) and offset -7 percent,
the code computes y = -10 (Python `int()` truncates toward zero) while the
claimed formula `bbox.y + floor(bbox.height * pct / 100)` gives -11. -/
theorem C2_floor_counterexample :
    ∃ p : Placement,
      generatePlacement 50 50 (some ⟨0, 0, 100, 150⟩) 200 200 (1/2) (-7) = .ok p ∧
      p.y = -10 ∧
      ((⟨0, 0, 100, 150⟩ : BBox).y : ℤ) +
        ⌊((⟨0, 0, 100, 150⟩ : BBox).h : ℚ) * ((-7 : ℤ) : ℚ) / 100⌋ = -11 ∧
      p.y ≠ ((⟨0, 0, 100, 150⟩ : BBox).y : ℤ) +
        ⌊((⟨0, 0, 100, 150⟩ : BBox).h : ℚ) * ((-7 : ℤ) : ℚ) / 100⌋ := by
  have hcode : pytrunc (((150 : ℕ) : ℚ) * ((-7 : ℤ) : ℚ) / 100) = -10 := by
    have harg : ((150 : ℕ) : ℚ) * ((-7 : ℤ) : ℚ) / 100 =
        -(((1050 : ℕ) : ℚ) / ((100 : ℕ) : ℚ)) := by push_cast; norm_num
    rw [harg, pytrunc_neg_natCast_div]
    decide
  have hfloor : ⌊((150 : ℕ) : ℚ) * ((-7 : ℤ) : ℚ) / 100⌋ = -11 := by
    have harg : ((150 : ℕ) : ℚ) * ((-7 : ℤ) : ℚ) / 100 =
        ((-1050 : ℤ) : ℚ) / ((100 : ℕ) : ℚ) := by push_cast; norm_num
    rw [harg, Rat.floor_intCast_div_natCast]
    decide
  refine ⟨_, generatePlacement_some 50 50 ⟨0, 0, 100, 150⟩ 200 200 (1/2) (-7)
    (by decide) (by decide), ?_, ?_, ?_⟩
  · show ((0 : ℕ) : ℤ) + pytrunc (((150 : ℕ) : ℚ) * ((-7 : ℤ) : ℚ) / 100) = -10
    rw [hcode]
    decide
  · show ((0 : ℕ) : ℤ) + ⌊((150 : ℕ) : ℚ) * ((-7 : ℤ) : ℚ) / 100⌋ = -11
    rw [hfloor]
    decide
  · show ((0 : ℕ) : ℤ) + pytrunc (((150 : ℕ) : ℚ) * ((-7 : ℤ) : ℚ) / 100) ≠
      ((0 : ℕ) : ℤ) + ⌊((150 : ℕ) : ℚ) * ((-7 : ℤ) : ℚ) / 100⌋
    rw [hcode, hfloor]
    decide

/-- C2 as amended: the vertical paste coordinate is
`bbox.y + trunc(bbox.height * vertical_offset_pct / 100)` where `trunc`
rounds toward zero (Python `int()`), not floor; the result is not clamped
to the box or the canvas. -/
theorem C2_y_truncation (dw dh : ℕ) (b : BBox) (tw th : ℕ)
    (padding_ratio : ℚ) (offset_pct : ℤ) (hdw : dw ≠ 0) (hdh : dh ≠ 0) :
    ∃ p : Placement,
      generatePlacement dw dh (some b) tw th padding_ratio offset_pct = .ok p ∧
      p.y = (b.y : ℤ) + pytrunc ((b.h : ℚ) * (offset_pct : ℚ) / 100) :=
  ⟨_, generatePlacement_some dw dh b tw th padding_ratio offset_pct hdw hdh, rfl⟩

/-- Witness for C2 as amended, at the counterexample's input. -/
theorem C2_y_truncation_witness :
    ∃ p : Placement,
      generatePlacement 50 50 (some ⟨0, 0, 100, 150⟩) 200 200 (1/2) (-7) = .ok p ∧
      p.y = (((⟨0, 0, 100, 150⟩ : BBox).y : ℕ) : ℤ) +
        pytrunc (((⟨0, 0, 100, 150⟩ : BBox).h : ℚ) * ((-7 : ℤ) : ℚ) / 100) :=
  C2_y_truncation 50 50 ⟨0, 0, 100, 150⟩ 200 200 (1/2) (-7) (by decide) (by decide)

/-- Counterexample to C3: for a zero-width design the placement computation
raises ZeroDivisionError from the unguarded division, not the InvalidInput
error the claim describes; no explicit guard exists. -/
theorem C3_invalid_input_counterexample :
    generatePlacement 0 50 (some ⟨0, 0, 100, 100⟩) 200 200 (1/2) 0 =
      .error .zeroDivisionError ∧
    generatePlacement 0 50 (some ⟨0, 0, 100, 100⟩) 200 200 (1/2) 0 ≠
      .error .invalidInput := by
  have h : generatePlacement 0 50 (some ⟨0, 0, 100, 100⟩) 200 200 (1/2) 0 =
      .error .zeroDivisionError := by
    show (do
        let r1 ← pydiv ((100 : ℕ) : ℚ) ((0 : ℕ) : ℚ)
        let r2 ← pydiv ((100 : ℕ) : ℚ) ((50 : ℕ) : ℚ)
        let scale := min (min r1 r2) 1 * (1/2 : ℚ)
        let new_width := pytrunc (((0 : ℕ) : ℚ) * scale)
        let new_height := pytrunc (((50 : ℕ) : ℚ) * scale)
        let y_offset := pytrunc (((100 : ℕ) : ℚ) * ((0 : ℤ) : ℚ) / 100)
        let x := ((0 : ℕ) : ℤ) + pyfloordiv (((100 : ℕ) : ℤ) - new_width) 2
        let y := ((0 : ℕ) : ℤ) + y_offset
        pure { scale := scale, new_width := new_width, new_height := new_height,
               x := x, y := y } : Except PyErr Placement) = .error .zeroDivisionError
    rw [show pydiv ((100 : ℕ) : ℚ) ((0 : ℕ) : ℚ) = .error .zeroDivisionError from by
      rw [pydiv, if_pos (by norm_num)]]
    rfl
  refine ⟨h, ?_⟩
  rw [h]
  intro hcontra
  exact absurd (Except.error.inj hcontra) (by decide)

/-- C3 as amended: a zero-size design makes the placement computation with
a present bounding box raise ZeroDivisionError — defined Python exception
behaviour propagated to the caller, but not the explicit InvalidInput
guard the specification calls for. -/
theorem C3_zero_size_raises_zero_division (dw dh : ℕ) (b : BBox) (tw th : ℕ)
    (padding_ratio : ℚ) (offset_pct : ℤ) (h : dw = 0 ∨ dh = 0) :
    generatePlacement dw dh (some b) tw th padding_ratio offset_pct =
      .error .zeroDivisionError := by
  by_cases hdw : dw = 0
  · subst hdw
    show (do
        let r1 ← pydiv (b.w : ℚ) ((0 : ℕ) : ℚ)
        let r2 ← pydiv (b.h : ℚ) (dh : ℚ)
        let scale := min (min r1 r2) 1 * padding_ratio
        let new_width := pytrunc (((0 : ℕ) : ℚ) * scale)
        let new_height := pytrunc ((dh : ℚ) * scale)
        let y_offset := pytrunc ((b.h : ℚ) * (offset_pct : ℚ) / 100)
        let x := (b.x : ℤ) + pyfloordiv ((b.w : ℤ) - new_width) 2
        let y := (b.y : ℤ) + y_offset
        pure { scale := scale, new_width := new_width, new_height := new_height,
               x := x, y := y } : Except PyErr Placement) = .error .zeroDivisionError
    rw [show pydiv (b.w : ℚ) ((0 : ℕ) : ℚ) = .error .zeroDivisionError from by
      rw [pydiv, if_pos (by norm_num)]]
    rfl
  · have hdh : dh = 0 := h.resolve_left hdw
    subst hdh
    have hdw' : ((dw : ℚ)) ≠ 0 := Nat.cast_ne_zero.mpr hdw
    show (do
        let r1 ← pydiv (b.w : ℚ) (dw : ℚ)
        let r2 ← pydiv (b.h : ℚ) ((0 : ℕ) : ℚ)
        let scale := min (min r1 r2) 1 * padding_ratio
        let new_width := pytrunc ((dw : ℚ) * scale)
        let new_height := pytrunc (((0 : ℕ) : ℚ) * scale)
        let y_offset := pytrunc ((b.h : ℚ) * (offset_pct : ℚ) / 100)
        let x := (b.x : ℤ) + pyfloordiv ((b.w : ℤ) - new_width) 2
        let y := (b.y : ℤ) + y_offset
        pure { scale := scale, new_width := new_width, new_height := new_height,
               x := x, y := y } : Except PyErr Placement) = .error .zeroDivisionError
    rw [show pydiv (b.w : ℚ) (dw : ℚ) = .ok ((b.w : ℚ) / (dw : ℚ)) from by
      rw [pydiv, if_neg hdw']]
    rw [show pydiv (b.h : ℚ) ((0 : ℕ) : ℚ) = .error .zeroDivisionError from by
      rw [pydiv, if_pos (by norm_num)]]
    rfl

/-- Witness for C3 as amended, at a zero-width design. -/
theorem C3_zero_size_raises_zero_division_witness :
    generatePlacement 0 50 (some ⟨10, 10, 100, 100⟩) 200 200 (1/2) 3 =
      .error .zeroDivisionError :=
  C3_zero_size_raises_zero_division 0 50 ⟨10, 10, 100, 100⟩ 200 200 (1/2) 3
    (Or.inl rfl)

/-- C5: with no bounding box detected, the design is pasted unscaled at
`x = (template.width - design.width) // 2` and
`y = (template.height - design.height) // 2`; when the design is larger
than the template the coordinates are negative and compositing clips
silently, keeping the output at the template's size. -/
theorem C5_fallback_centering (dw dh tw th : ℕ) (padding_ratio : ℚ)
    (offset_pct : ℤ) (tmpl dsgn : Img)
    (hw : tmpl.width = tw) (hh : tmpl.height = th) :
    ∃ p : Placement,
      generatePlacement dw dh none tw th padding_ratio offset_pct = .ok p ∧
      p.new_width = (dw : ℤ) ∧ p.new_height = (dh : ℤ) ∧
      p.x = pyfloordiv ((tw : ℤ) - (dw : ℤ)) 2 ∧
      p.y = pyfloordiv ((th : ℤ) - (dh : ℤ)) 2 ∧
      (tw < dw → p.x < 0) ∧ (th < dh → p.y < 0) ∧
      (pasteImg tmpl dsgn p.x p.y).width = tw ∧
      (pasteImg tmpl dsgn p.x p.y).height = th := by
  refine ⟨_, rfl, rfl, rfl, rfl, rfl, ?_, ?_, hw, hh⟩
  · intro hlt
    show pyfloordiv ((tw : ℤ) - (dw : ℤ)) 2 < 0
    rw [pyfloordiv, fdiv_two]
    have : (tw : ℤ) < (dw : ℤ) := by exact_mod_cast hlt
    omega
  · intro hlt
    show pyfloordiv ((th : ℤ) - (dh : ℤ)) 2 < 0
    rw [pyfloordiv, fdiv_two]
    have : (th : ℤ) < (dh : ℤ) := by exact_mod_cast hlt
    omega

/-- Witness for C5 at the spec's scenario: template 200 by 200, design
300 by 300, no box detected. -/
theorem C5_fallback_centering_witness :
    ∃ p : Placement,
      generatePlacement 300 300 none 200 200 (9/20) (-7) = .ok p ∧
      p.new_width = ((300 : ℕ) : ℤ) ∧ p.new_height = ((300 : ℕ) : ℤ) ∧
      p.x = pyfloordiv (((200 : ℕ) : ℤ) - ((300 : ℕ) : ℤ)) 2 ∧
      p.y = pyfloordiv (((200 : ℕ) : ℤ) - ((300 : ℕ) : ℤ)) 2 ∧
      (200 < 300 → p.x < 0) ∧ (200 < 300 → p.y < 0) ∧
      (pasteImg (solidImg 200 200) (solidImg 300 300) p.x p.y).width = 200 ∧
      (pasteImg (solidImg 200 200) (solidImg 300 300) p.x p.y).height = 200 :=
  C5_fallback_centering 300 300 200 200 (9/20) (-7)
    (solidImg 200 200) (solidImg 300 300) rfl rfl

/-- C8: the composite operation copies the template and pastes onto the
copy, so the image behind the template's handle — all its pixels and its
dimensions — is unchanged afterwards. -/
theorem C8_template_not_mutated (s : List Img) (shirt : ℕ) (dsgn : Img)
    (x y : ℤ) (h : shirt < s.length) :
    getImg (compositeRun s shirt dsgn x y).1 shirt = getImg s shirt := by
  show getImg (setImg (s ++ [getImg s shirt]) s.length
    (pasteImg (getImg (s ++ [getImg s shirt]) s.length) dsgn x y)) shirt = getImg s shirt
  rw [getImg, setImg, getImg, List.getD_eq_getElem?_getD, List.getD_eq_getElem?_getD]
  rw [List.getElem?_set_ne (by omega)]
  rw [List.getElem?_append, if_pos h]

/-- Witness for C8: a concrete store with one 2 by 2 template. -/
theorem C8_template_not_mutated_witness :
    getImg (compositeRun [solidImg 2 2] 0 (solidImg 1 1) 0 0).1 0 =
      getImg [solidImg 2 2] 0 :=
  C8_template_not_mutated [solidImg 2 2] 0 (solidImg 1 1) 0 0 (by decide)

/-- Counterexample to C7: the plain/model parameter selection is the
claimed case-insensitive substring check, but with plain offset 0 percent,
model offset 1 percent and both boxes of height 50, truncation collapses
both y-offsets to 0, so differing percentages do not always give different
y-offsets. -/
theorem C7_offset_collision_counterexample :
    isModel "White-Plain.png" = false ∧ isModel "Gray-Model.png" = true ∧
    (0 : ℤ) ≠ (1 : ℤ) ∧
    okY (placeForTemplate "White-Plain.png" 50 50 (some ⟨0, 0, 100, 50⟩)
      200 200 (9/20) (7/20) 0 1) = some 0 ∧
    okY (placeForTemplate "Gray-Model.png" 50 50 (some ⟨0, 0, 100, 50⟩)
      200 200 (9/20) (7/20) 0 1) = some 0 := by
  have hplain : isModel "White-Plain.png" = false := by decide
  have hmodel : isModel "Gray-Model.png" = true := by decide
  refine ⟨hplain, hmodel, by decide, ?_, ?_⟩
  · have h1 : placeForTemplate "White-Plain.png" 50 50 (some ⟨0, 0, 100, 50⟩)
        200 200 (9/20) (7/20) 0 1 =
        generatePlacement 50 50 (some ⟨0, 0, 100, 50⟩) 200 200 (9/20) 0 := by
      rw [placeForTemplate, hplain]
      rfl
    rw [h1, generatePlacement_some 50 50 ⟨0, 0, 100, 50⟩ 200 200 (9/20) 0
      (by decide) (by decide), okY]
    have hy : ((⟨0, 0, 100, 50⟩ : BBox).h : ℚ) * ((0 : ℤ) : ℚ) / 100 =
        ((0 : ℕ) : ℚ) / ((1 : ℕ) : ℚ) := by push_cast; norm_num
    rw [show ((⟨0, 0, 100, 50⟩ : BBox).y : ℤ) = (0 : ℤ) from rfl, hy,
      pytrunc_natCast_div]
    decide
  · have h2 : placeForTemplate "Gray-Model.png" 50 50 (some ⟨0, 0, 100, 50⟩)
        200 200 (9/20) (7/20) 0 1 =
        generatePlacement 50 50 (some ⟨0, 0, 100, 50⟩) 200 200 (7/20) 1 := by
      rw [placeForTemplate, hmodel]
      rfl
    rw [h2, generatePlacement_some 50 50 ⟨0, 0, 100, 50⟩ 200 200 (7/20) 1
      (by decide) (by decide), okY]
    have hy : ((⟨0, 0, 100, 50⟩ : BBox).h : ℚ) * ((1 : ℤ) : ℚ) / 100 =
        ((50 : ℕ) : ℚ) / ((100 : ℕ) : ℚ) := by push_cast; norm_num
    rw [show ((⟨0, 0, 100, 50⟩ : BBox).y : ℤ) = (0 : ℤ) from rfl, hy,
      pytrunc_natCast_div]
    decide

/-- C7 as amended: templates named "White-Plain.png" and "Gray-Model.png"
select the plain and model parameter sets respectively (case-insensitive
substring "model" in the filename), and whenever the two offset
percentages differ and the detected box height is 100 — so that the
truncated offsets `trunc(h * pct / 100)` themselves differ — the two
placements get different y coordinates. -/
theorem C7_model_selection (b : BBox) (dw dh tw th : ℕ) (pp mp : ℚ)
    (po mo : ℤ) (hdw : dw ≠ 0) (hdh : dh ≠ 0) (hb : b.h = 100)
    (hoff : po ≠ mo) :
    isModel "White-Plain.png" = false ∧ isModel "Gray-Model.png" = true ∧
    ∃ p1 p2 : Placement,
      placeForTemplate "White-Plain.png" dw dh (some b) tw th pp mp po mo = .ok p1 ∧
      placeForTemplate "Gray-Model.png" dw dh (some b) tw th pp mp po mo = .ok p2 ∧
      p1.y = (b.y : ℤ) + po ∧ p2.y = (b.y : ℤ) + mo ∧ p1.y ≠ p2.y := by
  have hplain : isModel "White-Plain.png" = false := by decide
  have hmodel : isModel "Gray-Model.png" = true := by decide
  have hz : ∀ z : ℤ, pytrunc ((b.h : ℚ) * (z : ℚ) / 100) = z := by
    intro z
    rw [hb]
    have harg : ((100 : ℕ) : ℚ) * (z : ℚ) / 100 = ((z : ℤ) : ℚ) := by
      push_cast
      ring
    rw [harg, pytrunc_intCast]
  have h1 : placeForTemplate "White-Plain.png" dw dh (some b) tw th pp mp po mo =
      generatePlacement dw dh (some b) tw th pp po := by
    rw [placeForTemplate, hplain]
    rfl
  have h2 : placeForTemplate "Gray-Model.png" dw dh (some b) tw th pp mp po mo =
      generatePlacement dw dh (some b) tw th mp mo := by
    rw [placeForTemplate, hmodel]
    rfl
  have hp1 := generatePlacement_some dw dh b tw th pp po hdw hdh
  have hp2 := generatePlacement_some dw dh b tw th mp mo hdw hdh
  refine ⟨hplain, hmodel, _, _, h1.trans hp1, h2.trans hp2, ?_, ?_, ?_⟩
  · show (b.y : ℤ) + pytrunc ((b.h : ℚ) * (po : ℚ) / 100) = (b.y : ℤ) + po
    rw [hz po]
  · show (b.y : ℤ) + pytrunc ((b.h : ℚ) * (mo : ℚ) / 100) = (b.y : ℤ) + mo
    rw [hz mo]
  · show (b.y : ℤ) + pytrunc ((b.h : ℚ) * (po : ℚ) / 100) ≠
      (b.y : ℤ) + pytrunc ((b.h : ℚ) * (mo : ℚ) / 100)
    rw [hz po, hz mo]
    omega

/-- A design file whose bytes cannot be decoded raises inside the outer
loop body as soon as it is opened. -/
lemma processDesign_error_of_bad (detect : Img → Option BBox)
    (design_names : String → Option String) (shirts : List UFile)
    (pp mp : ℚ) (po mo : ℤ) (f : UFile) (hf : f.content = none) :
    processDesign detect design_names shirts pp mp po mo f =
      .error .unidentifiedImageError := by
  rw [processDesign, pyImageOpen, hf]
  rfl

/-- If the loop body raises on some element of the list, the whole Python
for loop raises. -/
lemma forEachM_error {α β ε : Type} (f : α → Except ε β) (l : List α)
    (a : α) (ha : a ∈ l) (e : ε) (hfa : f a = .error e) :
    ∃ e2, forEachM f l = .error e2 := by
  induction l with
  | nil => cases ha
  | cons hd tl ih =>
    rcases List.mem_cons.mp ha with rfl | hmem
    · exact ⟨e, by rw [forEachM, hfa]; rfl⟩
    · obtain ⟨e2, he2⟩ := ih hmem
      cases hfh : f hd with
      | error e3 => exact ⟨e3, by rw [forEachM, hfh]; rfl⟩
      | ok b =>
        refine ⟨e2, ?_⟩
        rw [forEachM, hfh]
        show (do
          let bs ← forEachM f tl
          pure (b :: bs) : Except ε (List β)) = .error e2
        rw [he2]
        rfl

/-- Counterexample to C4: a batch of an undecodable design followed by a
good one produces a single error and no outputs at all — the decode
failure aborts the whole batch — while the good pair alone succeeds. -/
theorem C4_decode_abort_counterexample :
    generateBatch (fun _ => none) (fun _ => none)
      [⟨"bad.png", none⟩, ⟨"good.png", some (solidImg 50 50)⟩]
      [⟨"white.png", some (solidImg 200 200)⟩] (9/20) (7/20) (-7) 3 =
      .error .unidentifiedImageError ∧
    ∃ l, generateBatch (fun _ => none) (fun _ => none)
      [⟨"good.png", some (solidImg 50 50)⟩]
      [⟨"white.png", some (solidImg 200 200)⟩] (9/20) (7/20) (-7) 3 = .ok l ∧
      l.map Prod.fst = ["graphic_white_tee.png"] := by
  refine ⟨rfl, _, rfl, rfl⟩

/-- A template file whose bytes cannot be decoded raises inside the inner
loop body as soon as it is opened. -/
lemma processShirt_error_of_bad (detect : Img → Option BBox) (pp mp : ℚ)
    (po mo : ℤ) (graphic_name : String) (dsgn : Img) (s : UFile)
    (hs : s.content = none) :
    processShirt detect pp mp po mo graphic_name dsgn s =
      .error .unidentifiedImageError := by
  rw [processShirt, pyImageOpen, hs]
  rfl

/-- When some template file is undecodable, the outer loop body raises on
every design file: either the design itself fails to decode, or the inner
loop reaches the bad template and raises there. -/
lemma processDesign_error_of_bad_shirt (detect : Img → Option BBox)
    (design_names : String → Option String) (shirts : List UFile)
    (pp mp : ℚ) (po mo : ℤ) (f : UFile)
    (hs : ∃ s ∈ shirts, s.content = none) :
    ∃ e, processDesign detect design_names shirts pp mp po mo f =
      .error e := by
  cases hf : f.content with
  | none =>
    exact ⟨.unidentifiedImageError,
      processDesign_error_of_bad detect design_names shirts pp mp po mo f hf⟩
  | some img =>
    obtain ⟨s, hmem, hscontent⟩ := hs
    obtain ⟨e2, he2⟩ := forEachM_error
      (processShirt detect pp mp po mo ((design_names f.name).getD "graphic") img)
      shirts s hmem .unidentifiedImageError
      (processShirt_error_of_bad detect pp mp po mo
        ((design_names f.name).getD "graphic") img s hscontent)
    refine ⟨e2, ?_⟩
    rw [processDesign, pyImageOpen, hf]
    show forEachM
      (processShirt detect pp mp po mo ((design_names f.name).getD "graphic") img)
      shirts = .error e2
    exact he2

/-- C4 as amended: when any design file of the selected batch has
undecodable bytes, or any template file does while the batch is nonempty,
the entire batch generation aborts with an error — no per-pair isolation
exists in the generate loop (only the preview path catches exceptions). -/
theorem C4_decode_failure_aborts_batch (detect : Img → Option BBox)
    (design_names : String → Option String) (batch shirts : List UFile)
    (pp mp : ℚ) (po mo : ℤ)
    (h : (∃ f ∈ batch, f.content = none) ∨
      ((∃ s ∈ shirts, s.content = none) ∧ batch ≠ [])) :
    ∃ e, generateBatch detect design_names batch shirts pp mp po mo =
      .error e := by
  have hout : ∃ e2, forEachM
      (processDesign detect design_names shirts pp mp po mo) batch =
      .error e2 := by
    rcases h with ⟨f, hmem, hf⟩ | ⟨hs, hne⟩
    · exact forEachM_error
        (processDesign detect design_names shirts pp mp po mo) batch f hmem
        .unidentifiedImageError
        (processDesign_error_of_bad detect design_names shirts pp mp po mo f hf)
    · obtain ⟨f, rest, rfl⟩ := List.exists_cons_of_ne_nil hne
      obtain ⟨e0, he0⟩ :=
        processDesign_error_of_bad_shirt detect design_names shirts pp mp po mo f hs
      exact forEachM_error
        (processDesign detect design_names shirts pp mp po mo) (f :: rest) f
        (List.mem_cons_self f rest) e0 he0
  obtain ⟨e2, he2⟩ := hout
  refine ⟨e2, ?_⟩
  show (do
    let groups ← forEachM
      (processDesign detect design_names shirts pp mp po mo) batch
    pure groups.flatten : Except PyErr (List (String × Img))) = .error e2
  rw [he2]
  rfl

/-- Witness for C4 as amended: a decodable design batch against an
undecodable template file. -/
theorem C4_decode_failure_aborts_batch_witness :
    ∃ e, generateBatch (fun _ => none) (fun _ => none)
      [⟨"good.png", some (solidImg 50 50)⟩]
      [⟨"broken.png", none⟩] (9/20) (7/20) (-7) 3 =
      .error e :=
  C4_decode_failure_aborts_batch (fun _ => none) (fun _ => none)
    [⟨"good.png", some (solidImg 50 50)⟩]
    [⟨"broken.png", none⟩] (9/20) (7/20) (-7) 3
    (Or.inr ⟨⟨⟨"broken.png", none⟩, List.mem_cons_self _ _, rfl⟩,
      List.cons_ne_nil _ _⟩)

/-- Witness for C7 as amended, at the default slider parameters. -/
theorem C7_model_selection_witness :
    isModel "White-Plain.png" = false ∧ isModel "Gray-Model.png" = true ∧
    ∃ p1 p2 : Placement,
      placeForTemplate "White-Plain.png" 50 50 (some ⟨50, 50, 100, 100⟩)
        200 200 (9/20) (7/20) (-7) 3 = .ok p1 ∧
      placeForTemplate "Gray-Model.png" 50 50 (some ⟨50, 50, 100, 100⟩)
        200 200 (9/20) (7/20) (-7) 3 = .ok p2 ∧
      p1.y = (((⟨50, 50, 100, 100⟩ : BBox).y : ℕ) : ℤ) + (-7) ∧
      p2.y = (((⟨50, 50, 100, 100⟩ : BBox).y : ℕ) : ℤ) + 3 ∧ p1.y ≠ p2.y :=
  C7_model_selection ⟨50, 50, 100, 100⟩ 50 50 200 200 (9/20) (7/20) (-7) 3
    (by decide) (by decide) rfl (by decide)

end Mockup
